import Mathlib

/-!
Verification of the dronewatch resilient fetch orchestration layer.

The definitions below are a shallow embedding of the Python sources in
`tools/`: `download_manager.py` (RateLimiter, DownloadManager),
`cached_downloads.py` (CACHE_EXPIRY, AssetCache) and
`optimized_downloads.py` (execute_query_with_retry, EU_REGIONS,
download_military_chunked, process_military_elements).  Machine floats
carrying times and delays are modelled as exact rationals; the file system
and the cache index are modelled as association lists; exceptions are
modelled as explicit outcome values.
-/

/-- Python `dict.get` / association-list lookup: first binding wins,
mirroring key lookup in a Python dict. -/
def lookup? {α : Type} (k : String) : List (String × α) → Option α
  | [] => none
  | (k', v) :: rest => if k = k' then some v else lookup? k rest

/-- Python `dict[k] = v`: replace any existing binding for `k`. -/
def dictInsert {α : Type} (k : String) (v : α) (l : List (String × α)) :
    List (String × α) :=
  (k, v) :: l.filter (fun p => p.1 != k)

/-- Python `a or b` on optional strings: `None` and `""` are falsy. -/
def pyOrStr (a b : Option String) : Option String :=
  match a with
  | some s => if s = "" then b else some s
  | none => b

/-- Python `a or d` with a string default: `None` and `""` fall through. -/
def pyStrDefault (a : Option String) (d : String) : String :=
  match a with
  | some s => if s = "" then d else s
  | none => d

/-- Option fallback, mirroring `element.get("lat", center.get("lat"))`. -/
def optOr {α : Type} (a b : Option α) : Option α :=
  match a with
  | some x => some x
  | none => b

/-! ## RateLimiter (download_manager.py, lines 37-71) -/

/-- State of `RateLimiter`: base delay, timestamp of the last request,
consecutive-failure counter and cumulative request counter. -/
structure RateLimiter where
  base_delay : ℚ
  last_request : ℚ
  consecutive_failures : ℕ
  total_requests : ℕ
  deriving DecidableEq

/-- `RateLimiter.__init__`: fresh limiter with the given base delay. -/
def RateLimiter.init (base_delay : ℚ) : RateLimiter :=
  { base_delay := base_delay, last_request := 0, consecutive_failures := 0,
    total_requests := 0 }

/-- The required delay computed inside `wait_if_needed`:
`base_delay`, multiplied by `3 ** consecutive_failures` when the failure
counter is positive. -/
def RateLimiter.requiredDelay (rl : RateLimiter) : ℚ :=
  if rl.consecutive_failures > 0 then
    rl.base_delay * 3 ^ rl.consecutive_failures
  else
    rl.base_delay

/-- `wait_if_needed` at wall-clock time `now`: returns the time slept and
the updated limiter state. -/
def RateLimiter.wait_if_needed (rl : RateLimiter) (now : ℚ) : ℚ × RateLimiter :=
  let time_since_last := now - rl.last_request
  let required_delay := rl.requiredDelay
  let wait_time := if time_since_last < required_delay then
    required_delay - time_since_last else 0
  (wait_time,
   { rl with last_request := now + wait_time,
             total_requests := rl.total_requests + 1 })

/-- `record_success`: reset the consecutive-failure counter. -/
def RateLimiter.record_success (rl : RateLimiter) : RateLimiter :=
  { rl with consecutive_failures := 0 }

/-- `record_failure`: increment the consecutive-failure counter. -/
def RateLimiter.record_failure (rl : RateLimiter) : RateLimiter :=
  { rl with consecutive_failures := rl.consecutive_failures + 1 }

/-- `N` consecutive `record_failure` calls. -/
def RateLimiter.recordFailures (rl : RateLimiter) : ℕ → RateLimiter
  | 0 => rl
  | n + 1 => (rl.recordFailures n).record_failure

theorem RateLimiter.recordFailures_counter (rl : RateLimiter) (n : ℕ) :
    (rl.recordFailures n).consecutive_failures = rl.consecutive_failures + n := by
  induction n with
  | zero => rfl
  | succ n ih =>
      simp [RateLimiter.recordFailures, RateLimiter.record_failure, ih]
      omega

theorem RateLimiter.recordFailures_base (rl : RateLimiter) (n : ℕ) :
    (rl.recordFailures n).base_delay = rl.base_delay := by
  induction n with
  | zero => rfl
  | succ n ih => simp [RateLimiter.recordFailures, RateLimiter.record_failure, ih]

/-! ## Cache TTL table (cached_downloads.py, lines 16-23) -/

/-- `CACHE_EXPIRY`: per-category cache lifetime in days. -/
def CACHE_EXPIRY : List (String × ℕ) :=
  [("airports", 7), ("harbours", 14), ("military", 30),
   ("energy", 3), ("rail", 14), ("border", 30)]

/-- `CACHE_EXPIRY.get(asset_type, 7)`: the TTL used by `is_cache_valid`
and `clean_expired_cache`. -/
def cacheExpiryGet (asset_type : String) : ℕ :=
  (lookup? asset_type CACHE_EXPIRY).getD 7

theorem cacheExpiryGet_pos (asset_type : String) : 0 < cacheExpiryGet asset_type := by
  simp only [cacheExpiryGet, CACHE_EXPIRY, lookup?]
  repeat' split
  all_goals simp

/-! ## AssetCache (cached_downloads.py, lines 25-104) -/

/-- One record of the persisted cache index. -/
structure CacheEntry where
  asset_type : String
  query_hash : String
  filename : String
  timestamp : ℚ
  size : ℕ
  file_size : ℕ
  deriving DecidableEq

/-- Contents of a cache file on disk: either a payload that parses back,
or bytes on which `json.loads` raises. A filename absent from the file
table is a missing file. -/
inductive FileContent (α : Type) where
  | ok : α → FileContent α
  | corrupt : FileContent α
  deriving DecidableEq

/-- Cache state: the persisted index plus the cache directory contents. -/
structure CacheState (α : Type) where
  index : List (String × CacheEntry)
  files : List (String × FileContent α)
  deriving DecidableEq

/-- `get_cache_key`: `f"{asset_type}_{query_hash}"`. -/
def get_cache_key (asset_type query_hash : String) : String :=
  asset_type ++ "_" ++ query_hash

/-- `is_cache_valid` at wall-clock time `now` (times in days): the key is
in the index and `now - cached_time < timedelta(days=expiry_days)`. -/
def is_cache_valid {α : Type} (st : CacheState α) (now : ℚ)
    (asset_type query_hash : String) : Bool :=
  match lookup? (get_cache_key asset_type query_hash) st.index with
  | none => false
  | some cache_info =>
      decide (now - cache_info.timestamp < (cacheExpiryGet asset_type : ℚ))

/-- `get_cached_data`: `None` unless the entry is valid, the backing file
exists and its contents parse. -/
def get_cached_data {α : Type} (st : CacheState α) (now : ℚ)
    (asset_type query_hash : String) : Option α :=
  if is_cache_valid st now asset_type query_hash then
    match lookup? (get_cache_key asset_type query_hash) st.index with
    | none => none
    | some cache_info =>
        match lookup? cache_info.filename st.files with
        | some (FileContent.ok d) => some d
        | some FileContent.corrupt => none
        | none => none
  else
    none

/-- `cache_data`: write the payload to a fresh timestamped file, then
replace the index entry for the key and flush the index.  `elementsLen`
models `len(data.get("elements", []))` and `byteSize` the written file's
`st_size`. -/
def cache_data {α : Type} (elementsLen byteSize : α → ℕ) (st : CacheState α)
    (now : ℚ) (asset_type query_hash : String) (data : α) : CacheState α :=
  let cache_key := get_cache_key asset_type query_hash
  let filename := cache_key ++ "_" ++ toString now ++ ".json"
  { files := dictInsert filename (FileContent.ok data) st.files,
    index := dictInsert cache_key
      { asset_type := asset_type, query_hash := query_hash,
        filename := filename, timestamp := now,
        size := elementsLen data, file_size := byteSize data } st.index }

/-! ## OSM elements and the query executor (optimized_downloads.py) -/

/-- One raw element of an Overpass response.  `lat`/`lon` are the
top-level coordinates; `centerLat`/`centerLon` model the `center`
sub-object used for ways. -/
structure OsmElement where
  id : Option ℕ
  lat : Option ℚ
  lon : Option ℚ
  centerLat : Option ℚ
  centerLon : Option ℚ
  tags : List (String × String)
  deriving DecidableEq

/-- The parsed JSON body of an Overpass response, restricted to the
`elements` list every caller reads via `osm_data.get("elements", [])`. -/
structure OverpassResponse where
  elements : List OsmElement
  deriving DecidableEq

/-- The loop body of `execute_query_with_retry` (lines 47-70), walking the
attempt indices of `range(max_retries)`.  `attempts i = some r` models
attempt `i` returning a parsed response; `none` models any exception
(network error, timeout, malformed payload).  On the last failed attempt,
and after the loop, the function returns `{"elements": []}`. -/
def runAttempts (attempts : ℕ → Option OverpassResponse) (max_retries : ℕ) :
    List ℕ → OverpassResponse
  | [] => { elements := [] }
  | i :: rest =>
      match attempts i with
      | some r => r
      | none =>
          if i = max_retries - 1 then { elements := [] }
          else runAttempts attempts max_retries rest

/-- `execute_query_with_retry(query, max_retries)`, abstracted over the
outcome of each attempt. -/
def execute_query_with_retry (attempts : ℕ → Option OverpassResponse)
    (max_retries : ℕ) : OverpassResponse :=
  runAttempts attempts max_retries (List.range max_retries)

/-! ## Military element processing (optimized_downloads.py, lines 161-187) -/

/-- One GeoJSON point feature produced by `process_military_elements`.
`coordinates` is the `[float(lon), float(lat)]` pair. -/
structure Feature where
  osm_id : Option ℕ
  name : String
  facility_type : String
  asset_type : String
  coordinates : ℚ × ℚ
  tags : List (String × String)
  deriving DecidableEq

/-- `process_military_elements`: keep elements with coordinates (own or
`center` fallback), naming them via the Python `or`-chain
`tags.get("name") or tags.get("military") or tags.get("ref") or
"Military facility"`. -/
def process_military_elements (elements : List OsmElement) : List Feature :=
  elements.filterMap (fun element =>
    let lat := optOr element.lat element.centerLat
    let lon := optOr element.lon element.centerLon
    match lat, lon with
    | some la, some lo =>
        some { osm_id := element.id,
               name := pyStrDefault
                 (pyOrStr (pyOrStr (lookup? "name" element.tags)
                   (lookup? "military" element.tags)) (lookup? "ref" element.tags))
                 "Military facility",
               facility_type := (lookup? "military" element.tags).getD "base",
               asset_type := "military",
               coordinates := (lo, la),
               tags := element.tags.filter
                 (fun p => p.1 != "name" && p.1 != "military") }
    | _, _ => none)

/-! ## Region chunking (optimized_downloads.py, lines 24-30 and 74-107) -/

/-- `EU_REGIONS`: region name to bounding box (south, west, north, east),
in definition order. -/
def EU_REGIONS : List (String × (ℤ × ℤ × ℤ × ℤ)) :=
  [("nordic", (55, 4, 72, 32)),
   ("western", (42, -10, 55, 8)),
   ("central", (45, 8, 55, 20)),
   ("southern", (35, 8, 45, 20)),
   ("eastern", (45, 20, 55, 40))]

/-- The region loop of `download_military_chunked`, accumulating
`all_features` with `all_features.extend(region_features)` per region.
`responses` gives each region's `execute_query_with_retry` result. -/
def militaryRegionLoop (responses : String → OverpassResponse) :
    List (String × (ℤ × ℤ × ℤ × ℤ)) → List Feature → List Feature
  | [], all_features => all_features
  | region :: rest, all_features =>
      militaryRegionLoop responses rest
        (all_features ++ process_military_elements (responses region.1).elements)

/-- The feature list saved by `download_military_chunked` (the contents of
`military.geojson`). -/
def download_military_chunked (responses : String → OverpassResponse) :
    List Feature :=
  militaryRegionLoop responses EU_REGIONS []

theorem militaryRegionLoop_eq (responses : String → OverpassResponse)
    (regions : List (String × (ℤ × ℤ × ℤ × ℤ))) (acc : List Feature) :
    militaryRegionLoop responses regions acc =
      acc ++ (regions.map
        (fun r => process_military_elements (responses r.1).elements)).flatten := by
  induction regions generalizing acc with
  | nil => simp [militaryRegionLoop]
  | cons region rest ih => simp [militaryRegionLoop, ih]

/-! ## Strategy chain (download_manager.py, lines 86-133) -/

/-- Outcome of one strategy call inside `download_with_fallback`:
`strategy(asset_type)` returns True, returns False, or raises. -/
inductive StrategyOutcome where
  | succeeded
  | returnedFalse
  | raised
  deriving DecidableEq

/-- Observable record emitted while `download_with_fallback` runs: a
`logging.warning` line from the `except` branch, or an entry appended to
`download_stats["operations"]` (the run report). -/
inductive RunEvent where
  | warn : String → RunEvent
  | operation : String → Bool → RunEvent
  deriving DecidableEq

/-- The strategy loop of `download_with_fallback`: a raising strategy logs
a warning and increments the limiter's failure count before the loop
advances; a strategy returning False advances with nothing emitted; a
succeeding strategy resets the failure count and appends its success
record; an exhausted list appends the `all_failed` record.  Returns
(result, consecutive_failures, events in emission order). -/
def fallbackLoop (cf : ℕ) (events : List RunEvent) :
    List (String × StrategyOutcome) → Bool × ℕ × List RunEvent
  | [] => (false, cf, events ++ [RunEvent.operation "all_failed" false])
  | (nm, outcome) :: rest =>
      match outcome with
      | .succeeded => (true, 0, events ++ [RunEvent.operation nm true])
      | .returnedFalse => fallbackLoop cf events rest
      | .raised => fallbackLoop (cf + 1) (events ++ [RunEvent.warn nm]) rest

/-- `download_with_fallback`, abstracted over the per-strategy outcomes,
starting from `cf0` consecutive recorded failures. -/
def download_with_fallback (cf0 : ℕ)
    (strategies : List (String × StrategyOutcome)) : Bool × ℕ × List RunEvent :=
  fallbackLoop cf0 [] strategies

/-- The run-report records among the emitted events: exactly the entries
of `download_stats["operations"]`, in order. -/
def operationsOf (events : List RunEvent) : List (String × Bool) :=
  events.filterMap (fun e => match e with
    | RunEvent.operation nm ok => some (nm, ok)
    | RunEvent.warn _ => none)

/-! ## The military download pipeline (download_manager.py + optimized_downloads.py) -/

/-- An asset file on disk: modification time and the features stored in it. -/
structure AssetFile where
  mtime : ℚ
  features : List Feature
  deriving DecidableEq

/-- State threaded through repeated `download_with_fallback("military")`
requests: the asset directory and the number of executor invocations
(network fetches) so far. -/
structure DMState where
  assetFiles : List (String × AssetFile)
  executorCalls : ℕ
  deriving DecidableEq

/-- `_try_cached_download` (lines 135-154): True iff caching is enabled,
`{asset_type}_cached.geojson` exists, and its age is below 24 hours
(times in seconds here, matching `24 * 3600`). -/
def try_cached_download (enable_cache : Bool) (now : ℚ) (st : DMState)
    (asset_type : String) : Bool :=
  enable_cache &&
    match lookup? (asset_type ++ "_cached.geojson") st.assetFiles with
    | some f => decide (now - f.mtime < 24 * 3600)
    | none => false

/-- `download_military_chunked` as invoked by `_try_optimized_download`:
one `execute_query_with_retry` call per region in `EU_REGIONS`, then the
combined features are written to `military.geojson`. -/
def run_download_military_chunked (responses : String → OverpassResponse)
    (now : ℚ) (st : DMState) : DMState :=
  { assetFiles := dictInsert "military.geojson"
      { mtime := now, features := download_military_chunked responses }
      st.assetFiles,
    executorCalls := st.executorCalls + EU_REGIONS.length }

/-- `download_with_fallback("military")`: the cached-download strategy is
tried first; when it returns False the optimized chunked download runs
(and succeeds for "military", so later strategies are never reached).
Returns success, the features the request produced, and the new state. -/
def download_with_fallback_military (enable_cache : Bool)
    (responses : String → OverpassResponse) (now : ℚ) (st : DMState) :
    Bool × List Feature × DMState :=
  if try_cached_download enable_cache now st "military" then
    (true,
     (lookup? "military_cached.geojson" st.assetFiles).elim []
       (fun f => f.features),
     st)
  else
    (true, download_military_chunked responses,
     run_download_military_chunked responses now st)

/-! ## Query fingerprints (cached_downloads.py, lines 45-51)

`query_hash` is `hashlib.md5(query.encode()).hexdigest()[:12]`.  The md5
compression function (RFC 1321) is embedded below over `ℕ` with explicit
reduction modulo `2^32`. -/

/-- `2^32`. -/
def M32 : ℕ := 4294967296

/-- `2^32 - 1`, the 32-bit all-ones mask. -/
def MASK32 : ℕ := 4294967295

/-- 32-bit left rotation of a number below `2^32`. -/
def rotl32 (x s : ℕ) : ℕ :=
  (x * 2 ^ s) % M32 + x / 2 ^ (32 - s)

/-- The 64 md5 round constants `floor(abs(sin(i+1)) * 2^32)`. -/
def md5K : List ℕ :=
  [0xd76aa478, 0xe8c7b756, 0x242070db, 0xc1bdceee,
   0xf57c0faf, 0x4787c62a, 0xa8304613, 0xfd469501,
   0x698098d8, 0x8b44f7af, 0xffff5bb1, 0x895cd7be,
   0x6b901122, 0xfd987193, 0xa679438e, 0x49b40821,
   0xf61e2562, 0xc040b340, 0x265e5a51, 0xe9b6c7aa,
   0xd62f105d, 0x02441453, 0xd8a1e681, 0xe7d3fbc8,
   0x21e1cde6, 0xc33707d6, 0xf4d50d87, 0x455a14ed,
   0xa9e3e905, 0xfcefa3f8, 0x676f02d9, 0x8d2a4c8a,
   0xfffa3942, 0x8771f681, 0x6d9d6122, 0xfde5380c,
   0xa4beea44, 0x4bdecfa9, 0xf6bb4b60, 0xbebfbc70,
   0x289b7ec6, 0xeaa127fa, 0xd4ef3085, 0x04881d05,
   0xd9d4d039, 0xe6db99e5, 0x1fa27cf8, 0xc4ac5665,
   0xf4292244, 0x432aff97, 0xab9423a7, 0xfc93a039,
   0x655b59c3, 0x8f0ccc92, 0xffeff47d, 0x85845dd1,
   0x6fa87e4f, 0xfe2ce6e0, 0xa3014314, 0x4e0811a1,
   0xf7537e82, 0xbd3af235, 0x2ad7d2bb, 0xeb86d391]

/-- The 64 md5 per-round left-rotation amounts. -/
def md5S : List ℕ :=
  [7, 12, 17, 22, 7, 12, 17, 22, 7, 12, 17, 22, 7, 12, 17, 22,
   5, 9, 14, 20, 5, 9, 14, 20, 5, 9, 14, 20, 5, 9, 14, 20,
   4, 11, 16, 23, 4, 11, 16, 23, 4, 11, 16, 23, 4, 11, 16, 23,
   6, 10, 15, 21, 6, 10, 15, 21, 6, 10, 15, 21, 6, 10, 15, 21]

/-- Little-endian byte decomposition: the low `count` bytes of `n`. -/
def leBytes (n count : ℕ) : List ℕ :=
  (List.range count).map (fun i => n / 256 ^ i % 256)

/-- The `j`-th little-endian 32-bit word of a 64-byte block. -/
def blockWord (block : List ℕ) (j : ℕ) : ℕ :=
  block.getD (4 * j) 0 + 256 * block.getD (4 * j + 1) 0 +
    65536 * block.getD (4 * j + 2) 0 + 16777216 * block.getD (4 * j + 3) 0

/-- One md5 round: the nonlinear function, message-word schedule and
rotation for round `i`, applied to the state `(a, b, c, d)`. -/
def md5Round (block : List ℕ) (st : ℕ × ℕ × ℕ × ℕ) (i : ℕ) : ℕ × ℕ × ℕ × ℕ :=
  let (a, b, c, d) := st
  let f :=
    if i < 16 then (b &&& c) ||| ((MASK32 - b) &&& d)
    else if i < 32 then (d &&& b) ||| ((MASK32 - d) &&& c)
    else if i < 48 then b ^^^ c ^^^ d
    else c ^^^ (b ||| (MASK32 - d))
  let g :=
    if i < 16 then i
    else if i < 32 then (5 * i + 1) % 16
    else if i < 48 then (3 * i + 5) % 16
    else 7 * i % 16
  let rotated := rotl32 ((a + f + md5K.getD i 0 + blockWord block g) % M32)
    (md5S.getD i 0)
  (d, (b + rotated) % M32, b, c)

/-- Process one 64-byte block: 64 rounds, then add into the state. -/
def md5Block (st : ℕ × ℕ × ℕ × ℕ) (block : List ℕ) : ℕ × ℕ × ℕ × ℕ :=
  let (a0, b0, c0, d0) := st
  let (a, b, c, d) := (List.range 64).foldl (md5Round block) st
  ((a0 + a) % M32, (b0 + b) % M32, (c0 + c) % M32, (d0 + d) % M32)

/-- md5 padding: `0x80`, zeros to 56 mod 64, then the 64-bit
little-endian bit length. -/
def md5Pad (msg : List ℕ) : List ℕ :=
  let len := msg.length
  let zeros := (119 - len % 64) % 64
  msg ++ [0x80] ++ List.replicate zeros 0 ++ leBytes (len * 8 % 2 ^ 64) 8

/-- Split a byte list into 64-byte blocks (fuel-driven so that it
reduces by iota rules; `toBlocks` supplies enough fuel). -/
def toBlocksGo : ℕ → List ℕ → List (List ℕ)
  | 0, _ => []
  | _, [] => []
  | fuel + 1, l => l.take 64 :: toBlocksGo fuel (l.drop 64)

/-- Split a byte list into 64-byte blocks. -/
def toBlocks (l : List ℕ) : List (List ℕ) :=
  toBlocksGo l.length l

/-- md5 digest (16 bytes) of a byte message. -/
def md5Bytes (msg : List ℕ) : List ℕ :=
  let (a, b, c, d) := (toBlocks (md5Pad msg)).foldl md5Block
    (0x67452301, 0xefcdab89, 0x98badcfe, 0x10325476)
  leBytes a 4 ++ leBytes b 4 ++ leBytes c 4 ++ leBytes d 4

/-- Lowercase hex digit. -/
def hexChar (n : ℕ) : Char :=
  if n < 10 then Char.ofNat (48 + n) else Char.ofNat (87 + n)

/-- UTF-8 encoding of one character (`str.encode`). -/
def charUtf8 (c : Char) : List ℕ :=
  let n := c.toNat
  if n < 0x80 then [n]
  else if n < 0x800 then [0xC0 + n / 64, 0x80 + n % 64]
  else if n < 0x10000 then
    [0xE0 + n / 4096, 0x80 + n / 64 % 64, 0x80 + n % 64]
  else
    [0xF0 + n / 262144, 0x80 + n / 4096 % 64, 0x80 + n / 64 % 64,
     0x80 + n % 64]

/-- `query.encode()`: UTF-8 bytes of a string. -/
def utf8Bytes (s : String) : List ℕ :=
  (s.data.map charUtf8).flatten

/-- The character sequence of `hashlib.md5(query.encode()).hexdigest()`. -/
def md5HexChars (query : String) : List Char :=
  ((md5Bytes (utf8Bytes query)).map
    (fun b => [hexChar (b / 16), hexChar (b % 16)])).flatten

/-- `hashlib.md5(query.encode()).hexdigest()`. -/
def md5_hexdigest (query : String) : String :=
  String.mk (md5HexChars query)

/-- `AssetCache.query_hash`: the first 12 hex characters of the md5 of
the query text (`hexdigest()[:12]`, character slicing). -/
def query_hash (query : String) : String :=
  String.mk ((md5HexChars query).take 12)

/-! ## Theorems for the claims -/

theorem requiredDelay_after_failures (b : ℚ) (N : ℕ) :
    ((RateLimiter.init b).recordFailures N).requiredDelay = b * 3 ^ N := by
  have hc := RateLimiter.recordFailures_counter (RateLimiter.init b) N
  have hbase := RateLimiter.recordFailures_base (RateLimiter.init b) N
  rw [show (RateLimiter.init b).consecutive_failures = 0 from rfl,
    Nat.zero_add] at hc
  rw [show (RateLimiter.init b).base_delay = b from rfl] at hbase
  unfold RateLimiter.requiredDelay
  rw [hc, hbase]
  rcases Nat.eq_zero_or_pos N with h0 | hpos
  · simp [h0]
  · simp [hpos]

/-- Claim C1: starting from a fresh RateLimiter with base delay `b`, after
`N` consecutive `record_failure` calls the required delay computed by
`wait_if_needed` equals `b * 3 ^ N`; for a nonnegative base delay it is
monotonically non-decreasing in the failure count; and `record_success`
resets the consecutive-failure count to zero. -/
theorem claim_C1_rate_limiter_backoff (b : ℚ) (N M : ℕ) (rl : RateLimiter)
    (hb : 0 ≤ b) (hNM : N ≤ M) :
    ((RateLimiter.init b).recordFailures N).requiredDelay = b * 3 ^ N
    ∧ ((RateLimiter.init b).recordFailures N).requiredDelay ≤
        ((RateLimiter.init b).recordFailures M).requiredDelay
    ∧ rl.record_success.consecutive_failures = 0 := by
  refine ⟨requiredDelay_after_failures b N, ?_, rfl⟩
  rw [requiredDelay_after_failures b N, requiredDelay_after_failures b M]
  have h3 : (3 : ℚ) ^ N ≤ 3 ^ M := by
    apply pow_le_pow_right₀ (by norm_num) hNM
  exact mul_le_mul_of_nonneg_left h3 hb

theorem claim_C1_witness :
    ((RateLimiter.init 30).recordFailures 1).requiredDelay = 30 * 3 ^ 1
    ∧ ((RateLimiter.init 30).recordFailures 1).requiredDelay ≤
        ((RateLimiter.init 30).recordFailures 2).requiredDelay
    ∧ (RateLimiter.init 30).record_success.consecutive_failures = 0 :=
  claim_C1_rate_limiter_backoff 30 1 2 (RateLimiter.init 30) (by norm_num)
    (by norm_num)

/-- Claim C3: the validity check succeeds precisely when an index entry
exists for the key and its age is strictly below the category TTL; for an
entry written at time `T`, the check at exactly `T + TTL` reports the
entry expired. -/
theorem claim_C3_ttl_boundary {α : Type} (st : CacheState α) (now : ℚ)
    (asset_type qh : String) :
    (is_cache_valid st now asset_type qh = true ↔
      ∃ e, lookup? (get_cache_key asset_type qh) st.index = some e ∧
        now - e.timestamp < (cacheExpiryGet asset_type : ℚ))
    ∧ ∀ e, lookup? (get_cache_key asset_type qh) st.index = some e →
        is_cache_valid st (e.timestamp + (cacheExpiryGet asset_type : ℚ))
          asset_type qh = false := by
  constructor
  · unfold is_cache_valid
    cases h : lookup? (get_cache_key asset_type qh) st.index with
    | none => simp [h]
    | some e => simp [h]
  · intro e he
    unfold is_cache_valid
    rw [he]
    simp

/-- One-entry cache state exercising the C3 boundary. -/
def c3Entry : CacheEntry :=
  { asset_type := "military", query_hash := "qh1", filename := "f.json",
    timestamp := 0, size := 1, file_size := 10 }

/-- Cache state holding exactly `c3Entry` under its key. -/
def c3State : CacheState Unit :=
  { index := [("military_qh1", c3Entry)], files := [] }

theorem claim_C3_witness :
    is_cache_valid c3State
      (c3Entry.timestamp + (cacheExpiryGet "military" : ℚ)) "military" "qh1"
      = false :=
  (claim_C3_ttl_boundary c3State 0 "military" "qh1").2 c3Entry (by decide)

/-- Claim C4: writing a payload and immediately reading the same
(category, fingerprint) key back returns exactly the payload written. -/
theorem claim_C4_roundtrip {α : Type} (elementsLen byteSize : α → ℕ)
    (st : CacheState α) (now : ℚ) (asset_type qh : String) (data : α) :
    get_cached_data (cache_data elementsLen byteSize st now asset_type qh data)
      now asset_type qh = some data := by
  have hD : (0 : ℚ) < (cacheExpiryGet asset_type : ℚ) := by
    exact_mod_cast cacheExpiryGet_pos asset_type
  simp [get_cached_data, is_cache_valid, cache_data, dictInsert, lookup?,
    sub_self, hD]

theorem runAttempts_all_none (attempts : ℕ → Option OverpassResponse)
    (m : ℕ) (l : List ℕ) (hfail : ∀ i ∈ l, attempts i = none) :
    runAttempts attempts m l = { elements := [] } := by
  induction l with
  | nil => rfl
  | cons i rest ih =>
      have hi : attempts i = none := hfail i (by simp)
      unfold runAttempts
      rw [hi]
      by_cases hlast : i = m - 1
      · simp [hlast]
      · simp [hlast]
        exact ih (fun j hj => hfail j (by simp [hj]))

/-- Claim C5: when every one of the `max_retries` attempts fails, the
query executor returns the explicit empty result `{"elements": []}`
instead of raising. -/
theorem claim_C5_retries_exhausted (attempts : ℕ → Option OverpassResponse)
    (max_retries : ℕ) (hmr : 1 ≤ max_retries)
    (hfail : ∀ i < max_retries, attempts i = none) :
    execute_query_with_retry attempts max_retries = { elements := [] } := by
  unfold execute_query_with_retry
  exact runAttempts_all_none attempts max_retries (List.range max_retries)
    (fun i hi => hfail i (List.mem_range.mp hi))

theorem claim_C5_witness :
    execute_query_with_retry (fun _ => none) 3 = { elements := [] } :=
  claim_C5_retries_exhausted (fun _ => none) 3 (by norm_num)
    (fun _ _ => rfl)

/-- Claim C6: the chunked military fetch accumulates the processed
per-region feature lists in region-definition order (concatenation, no
cross-region deduplication), its size is the sum of the per-region sizes,
and a failed region (empty executor result) contributes zero features
without aborting the loop. -/
theorem claim_C6_region_merge (responses : String → OverpassResponse) :
    download_military_chunked responses =
      (EU_REGIONS.map
        (fun r => process_military_elements (responses r.1).elements)).flatten
    ∧ (download_military_chunked responses).length =
        (EU_REGIONS.map (fun r =>
          (process_military_elements (responses r.1).elements).length)).sum
    ∧ process_military_elements [] = [] := by
  have h := militaryRegionLoop_eq responses EU_REGIONS []
  rw [List.nil_append] at h
  refine ⟨by rw [download_military_chunked, h], ?_, rfl⟩
  rw [download_military_chunked, h, List.length_flatten, List.map_map]
  rfl

/-- The chain scenario of claim C2: the first two strategies raise, the
third succeeds. -/
def c2Strategies : List (String × StrategyOutcome) :=
  [("_try_cached_download", StrategyOutcome.raised),
   ("_try_optimized_download", StrategyOutcome.raised),
   ("_try_alternative_sources", StrategyOutcome.succeeded)]

/-- Claim C2 counterexample: with two raising strategies followed by a
succeeding one, the run report (`download_stats["operations"]`) contains
only the success record — zero failure records precede it, not two. -/
theorem claim_C2_counterexample :
    operationsOf (download_with_fallback 0 c2Strategies).2.2 =
      [("_try_alternative_sources", true)]
    ∧ ((operationsOf (download_with_fallback 0 c2Strategies).2.2).filter
        (fun p => !p.2)).length ≠ 2 := by
  constructor
  · rfl
  · decide

/-- Claim C2 amended: the recorded strategy name equals the succeeding
third strategy's name; a raising strategy emits only a log warning (and a
limiter failure increment) before the chain advances, so the run report
holds no failure records; a strategy returning False advances the chain
with nothing emitted at all. -/
theorem claim_C2_amended (n1 n2 n3 : String) (cf0 : ℕ)
    (rest : List (String × StrategyOutcome)) :
    download_with_fallback cf0
        [(n1, StrategyOutcome.raised), (n2, StrategyOutcome.raised),
         (n3, StrategyOutcome.succeeded)] =
      (true, 0,
       [RunEvent.warn n1, RunEvent.warn n2, RunEvent.operation n3 true])
    ∧ download_with_fallback cf0 ((n1, StrategyOutcome.returnedFalse) :: rest) =
        download_with_fallback cf0 rest := by
  exact ⟨rfl, rfl⟩

theorem lookup?_dictInsert_ne {α : Type} (k k' : String) (v : α)
    (l : List (String × α)) (h : ¬ k = k') :
    lookup? k (dictInsert k' v l) = lookup? k l := by
  unfold dictInsert
  rw [lookup?, if_neg h]
  induction l with
  | nil => rfl
  | cons p rest ih =>
      obtain ⟨a, b⟩ := p
      by_cases ha : a = k'
      · simp [ha, lookup?, h, ih]
      · simp only [List.filter_cons]
        simp [ha, lookup?, ih]

/-- A raw military element carrying coordinates and no tags. -/
def milElem (n : ℕ) (la lo : ℚ) : OsmElement :=
  { id := some n, lat := some la, lon := some lo,
    centerLat := none, centerLon := none, tags := [] }

/-- A raw element lacking coordinates (no `lat`/`lon`, no `center`). -/
def milElemNoCoord (n : ℕ) : OsmElement :=
  { id := some n, lat := none, lon := none,
    centerLat := none, centerLon := none, tags := [] }

/-- The live fetch of the claim C7 scenario: the nordic region returns 12
raw elements of which 3 lack coordinates; the other regions return none. -/
def c7Responses (region : String) : OverpassResponse :=
  if region = "nordic" then
    { elements :=
        [milElem 0 0 1, milElem 1 1 2, milElem 2 2 3, milElem 3 3 4,
         milElem 4 4 5, milElem 5 5 6, milElem 6 6 7, milElem 7 7 8,
         milElem 8 8 9, milElemNoCoord 9, milElemNoCoord 10,
         milElemNoCoord 11] }
  else
    { elements := [] }

/-- First request for "military" against an empty cache and asset store. -/
def c7First : Bool × List Feature × DMState :=
  download_with_fallback_military true c7Responses 0
    { assetFiles := [], executorCalls := 0 }

/-- Second request for the same category 1000 seconds later (well inside
every TTL window). -/
def c7Second : Bool × List Feature × DMState :=
  download_with_fallback_military true c7Responses 1000 c7First.2.2

/-- Claim C7 counterexample: the first request yields the expected 9
military point records, and the second request returns the same records,
but the executor call count rises from 5 to 10 — the second request does
issue network calls, because the cached-download strategy looks for
`military_cached.geojson` while the chunked download only ever writes
`military.geojson`. -/
theorem claim_C7_counterexample :
    c7First.2.1.length = 9
    ∧ c7First.2.1.all (fun f => f.asset_type == "military") = true
    ∧ c7Second.2.1 = c7First.2.1
    ∧ c7First.2.2.executorCalls = 5
    ∧ c7Second.2.2.executorCalls = 10 := by
  refine ⟨by decide, by decide, by decide, by decide, by decide⟩

/-- Claim C7 amended: a "military" request with an empty cache and a live
fetch of 12 raw elements (3 without coordinates) produces exactly 9 point
records, each with asset_type "military"; but any later request made
while `military_cached.geojson` is still absent performs the live fetch
again — one executor call per region — and the chunked download never
creates that file (it writes only `military.geojson`). -/
theorem claim_C7_amended (responses : String → OverpassResponse) (t1 t2 : ℚ) :
    (download_with_fallback_military true c7Responses t1
      { assetFiles := [], executorCalls := 0 }).2.1.length = 9
    ∧ (download_with_fallback_military true c7Responses t1
        { assetFiles := [], executorCalls := 0 }).2.1.all
        (fun f => f.asset_type == "military") = true
    ∧ (∀ st : DMState,
        lookup? "military_cached.geojson" st.assetFiles = none →
        (download_with_fallback_military true responses t2 st).2.2.executorCalls
          = st.executorCalls + 5)
    ∧ ∀ (st : DMState) (t : ℚ),
        lookup? "military_cached.geojson"
            (run_download_military_chunked responses t st).assetFiles =
          lookup? "military_cached.geojson" st.assetFiles := by
  refine ⟨?_, ?_, ?_, ?_⟩
  · show (download_military_chunked c7Responses).length = 9
    decide
  · show (download_military_chunked c7Responses).all
      (fun f => f.asset_type == "military") = true
    decide
  · intro st hnone
    have hnone' : lookup? ("military" ++ "_cached.geojson") st.assetFiles
        = none := by
      rw [show ("military" ++ "_cached.geojson" : String)
        = "military_cached.geojson" from rfl]
      exact hnone
    have hfalse : try_cached_download true t2 st "military" = false := by
      unfold try_cached_download
      rw [hnone']
      rfl
    unfold download_with_fallback_military
    rw [hfalse]
    simp [run_download_military_chunked, EU_REGIONS]
  · intro st t
    unfold run_download_military_chunked
    exact lookup?_dictInsert_ne "military_cached.geojson" "military.geojson" _
      st.assetFiles (by decide)

theorem claim_C7_witness :
    (download_with_fallback_military true c7Responses 1000
      { assetFiles := [], executorCalls := 0 }).2.2.executorCalls = 0 + 5 :=
  (claim_C7_amended c7Responses 0 1000).2.2.1
    { assetFiles := [], executorCalls := 0 } rfl

/-- Claim C8 counterexample: the TTL table keys the harbour category as
"harbours", so the singular name "harbour" is absent from the table and
receives the default of 7 days, not the claimed 14. -/
theorem claim_C8_counterexample :
    cacheExpiryGet "harbour" = 7 ∧ cacheExpiryGet "harbour" ≠ 14 := by
  exact ⟨rfl, by decide⟩

/-- Claim C8 amended: the TTL function maps the categories under their
table keys — "airports" to 7 days, "harbours" to 14, "military" to 30,
"energy" to 3, "rail" to 14, "border" to 30 — and every category absent
from the table (including the singular spellings "airport" and "harbour")
to the default of 7 days. -/
theorem claim_C8_amended :
    cacheExpiryGet "airports" = 7 ∧ cacheExpiryGet "harbours" = 14
    ∧ cacheExpiryGet "military" = 30 ∧ cacheExpiryGet "energy" = 3
    ∧ cacheExpiryGet "rail" = 14 ∧ cacheExpiryGet "border" = 30
    ∧ ∀ c : String, lookup? c CACHE_EXPIRY = none → cacheExpiryGet c = 7 := by
  refine ⟨rfl, rfl, rfl, rfl, rfl, rfl, ?_⟩
  intro c hc
  unfold cacheExpiryGet
  rw [hc]
  rfl

theorem claim_C8_witness : cacheExpiryGet "airport" = 7 :=
  claim_C8_amended.2.2.2.2.2.2 "airport" (by decide)

/-- Claim C9 counterexample: two distinct query texts whose md5 digests
agree on the first 48 bits, hence whose 12-character fingerprints are
equal — the fingerprint function is not injective. -/
theorem claim_C9_counterexample :
    query_hash "792106" = query_hash "14125795"
    ∧ ("792106" : String) ≠ "14125795" := by
  exact ⟨by decide, by decide⟩

/-- Claim C9 amended: the fingerprint function is deterministic (equal
query texts yield equal fingerprints), but since it truncates the md5
digest to 12 hex characters it cannot distinguish all query texts:
distinct queries with colliding fingerprints exist, so a cache entry
keyed by one query text can in principle satisfy a lookup for another. -/
theorem claim_C9_amended :
    (∀ q1 q2 : String, q1 = q2 → query_hash q1 = query_hash q2)
    ∧ ∃ q1 q2 : String, q1 ≠ q2 ∧ query_hash q1 = query_hash q2 := by
  refine ⟨fun q1 q2 h => by rw [h], "792106", "14125795", by decide, by decide⟩

theorem claim_C9_witness : query_hash "airports_csv_ourairports" =
    query_hash "airports_csv_ourairports" :=
  claim_C9_amended.1 "airports_csv_ourairports" "airports_csv_ourairports" rfl

/-- Claim C10: when the index holds a valid (present, unexpired) entry but
the backing file is missing or holds unparseable JSON, `get_cached_data`
returns the miss signal `none` instead of raising. -/
theorem claim_C10_bad_backing_file {α : Type} (st : CacheState α) (now : ℚ)
    (asset_type qh : String) (e : CacheEntry)
    (hidx : lookup? (get_cache_key asset_type qh) st.index = some e)
    (hvalid : is_cache_valid st now asset_type qh = true)
    (hbad : lookup? e.filename st.files = none ∨
      lookup? e.filename st.files = some FileContent.corrupt) :
    get_cached_data st now asset_type qh = none := by
  unfold get_cached_data
  rw [if_pos hvalid, hidx]
  rcases hbad with h | h <;> simp [h]

/-- Cache state exercising claim C10: a fresh index entry whose backing
file holds unparseable bytes. -/
def c10State : CacheState Unit :=
  { index :=
      [("military_qh2",
        { asset_type := "military", query_hash := "qh2",
          filename := "g.json", timestamp := 0, size := 1,
          file_size := 10 })],
    files := [("g.json", FileContent.corrupt)] }

theorem claim_C10_witness : get_cached_data c10State 1 "military" "qh2" = none :=
  claim_C10_bad_backing_file c10State 1 "military" "qh2"
    { asset_type := "military", query_hash := "qh2", filename := "g.json",
      timestamp := 0, size := 1, file_size := 10 }
    (by decide)
    (by
      have hkey : lookup? (get_cache_key "military" "qh2") c10State.index =
          some { asset_type := "military", query_hash := "qh2",
                 filename := "g.json", timestamp := 0, size := 1,
                 file_size := 10 } := by decide
      unfold is_cache_valid
      rw [hkey, show cacheExpiryGet "military" = 30 from rfl]
      norm_num)
    (Or.inr (by decide))
